import Mathlib

/-!
Shallow embedding of the SquadCreationBlocker plugin
(src/squad-server/plugins/squad-creation-blocker.js) and verification of its
specification.  Times are modelled in milliseconds as natural numbers; the
JavaScript `Map` objects become association lists keyed by the player's
steamID; RCON side effects become an explicit list of emitted commands.
-/

set_option maxHeartbeats 1000000

namespace SCB

/-- Plugin configuration, mirroring `optionsSpecification`.  Durations and
windows are in seconds, exactly as in the source. -/
structure Options where
  blockDuration : Nat
  broadcastMode : Bool
  allowDefaultSquadNames : Bool
  rateLimitEnforced : Bool
  rateLimitWindow : Nat
  rateLimitMaxSquads : Nat
  rateLimitBackoffTime : Nat
  maxSquadsInTimeWindow : Nat
  timeWindowForKick : Nat
  enforceMaxSquadCreationKick : Bool
  deriving DecidableEq, Repr

/-- The default values of `optionsSpecification`. -/
def defaultOptions : Options :=
  { blockDuration := 15
    broadcastMode := false
    allowDefaultSquadNames := true
    rateLimitEnforced := false
    rateLimitWindow := 2
    rateLimitMaxSquads := 3
    rateLimitBackoffTime := 10
    maxSquadsInTimeWindow := 10
    timeWindowForKick := 5
    enforceMaxSquadCreationKick := false }

/-- Per-player rate-limiter record: `{ timestamps: [], backoffUntil: 0 }`. -/
structure RateData where
  timestamps : List Nat
  backoffUntil : Nat
  deriving DecidableEq, Repr

/-- A scheduled countdown broadcast: when it fires and what it will say. -/
structure Timer where
  fireAt : Nat
  msg : String
  deriving DecidableEq, Repr

/-- Payload of a SQUAD_CREATED event. -/
structure AttemptInfo where
  steamID : String
  teamID : String
  squadID : String
  squadName : String
  deriving DecidableEq, Repr

/-- Outbound RCON commands the plugin can issue. -/
inductive Cmd where
  | disband (teamID squadID : String)
  | warn (steamID msg : String)
  | broadcast (msg : String)
  | kick (steamID reason : String)
  deriving DecidableEq, Repr

/-- The mutable fields of the plugin instance.  `broadcastTimeouts` is the
cancelable list of countdown timers; `expiryTimeouts` models the pending
`setTimeout` armed in `handleNewGame` (which the code never stores in
`broadcastTimeouts` and never cancels), recorded by its fire time. -/
structure PluginState where
  isBlocking : Bool
  isRoundEnding : Bool
  blockEndTime : Nat
  broadcastTimeouts : List Timer
  expiryTimeouts : List Nat
  rateLimiter : List (String × RateData)
  squadCreationTracker : List (String × List Nat)
  deriving DecidableEq, Repr

/-- State after the constructor runs. -/
def initialState : PluginState :=
  { isBlocking := false
    isRoundEnding := false
    blockEndTime := 0
    broadcastTimeouts := []
    expiryTimeouts := []
    rateLimiter := []
    squadCreationTracker := [] }

/-- `Map.set`: insert or replace the binding of `k`. -/
def mapSet {α : Type} (m : List (String × α)) (k : String) (v : α) :
    List (String × α) :=
  (k, v) :: m.filter (fun p => p.1 != k)

/-- The regular expression test of `isDefaultSquadName`:
matches the anchored pattern of an upper- or lower-case initial letter,
the literal word "quad", a single space and one or more digits. -/
def isDefaultSquadName (s : String) : Bool :=
  match s.data with
  | c :: 'q' :: 'u' :: 'a' :: 'd' :: ' ' :: ds =>
      (c == 'S' || c == 's') && !ds.isEmpty && ds.all Char.isDigit
  | _ => false

/-- `Math.ceil(d / 1000)` for a nonnegative millisecond difference `d`. -/
def ceilDiv1000 (d : Nat) : Nat := (d + 999) / 1000

/-- `checkRateLimit`: returns the boolean result together with the updated
rate-limiter map.  Faithful to the source: a missing record is created and
stored; an active backoff returns early without touching the timestamps;
otherwise timestamps outside the window are pruned and either the backoff is
set (count at limit) or the current time is appended. -/
def checkRateLimit (opts : Options) (currentTime : Nat)
    (rateLimiter : List (String × RateData)) (steamID : String) :
    Bool × List (String × RateData) :=
  if !opts.rateLimitEnforced then
    (true, rateLimiter)
  else
    let playerRateData :=
      (rateLimiter.lookup steamID).getD { timestamps := [], backoffUntil := 0 }
    let rl :=
      if (rateLimiter.lookup steamID).isNone then
        mapSet rateLimiter steamID playerRateData
      else rateLimiter
    if currentTime < playerRateData.backoffUntil then
      (false, rl)
    else
      let validTimestamps := playerRateData.timestamps.filter
        (fun ts => decide (currentTime - ts < opts.rateLimitWindow * 1000))
      if opts.rateLimitMaxSquads ≤ validTimestamps.length then
        (false, mapSet rl steamID
          { timestamps := validTimestamps
            backoffUntil := currentTime + opts.rateLimitBackoffTime * 1000 })
      else
        (true, mapSet rl steamID
          { timestamps := validTimestamps ++ [currentTime]
            backoffUntil := playerRateData.backoffUntil })

/-- The fixed reason string of `kickPlayer`. -/
def kickReason : String :=
  "Excessive squad creations at round start. Please avoid spamming squad creations."

/-- `trackSquadCreation`: prune the player's creation timestamps to the kick
window, append the current time, and kick when the count exceeds the
threshold (if kicking is enforced). -/
def trackSquadCreation (opts : Options) (currentTime : Nat)
    (tracker : List (String × List Nat)) (steamID : String) :
    List (String × List Nat) × List Cmd :=
  let playerCreationData := (tracker.lookup steamID).getD []
  let filtered := playerCreationData.filter
    (fun ts => decide (currentTime - ts < opts.timeWindowForKick * 1000))
  let updated := filtered ++ [currentTime]
  let tracker1 := mapSet tracker steamID updated
  if opts.enforceMaxSquadCreationKick
      && decide (opts.maxSquadsInTimeWindow < updated.length) then
    (tracker1, [Cmd.kick steamID kickReason])
  else
    (tracker1, [])

/-- The rate-limit warning of `handleSquadCreated` (template literal with the
`waitTime !== 1` plural). -/
def rateLimitWarnMsg (waitTime : Nat) : String :=
  "You have exceeded the squad creation limit. Please wait " ++
    toString waitTime ++ " second" ++
    (if waitTime != 1 then "s" else "") ++ "."

/-- The unconditional deny warning of `handleSquadCreated`: it interpolates
the configured `blockDuration`, not the time remaining. -/
def blockWarnMsg (blockDuration : Nat) : String :=
  "Custom squad creation is blocked for the first " ++
    toString blockDuration ++ " seconds of the game."

/-- `squadCreationType` capitalized, as produced by the
`charAt(0).toUpperCase() + slice(1)` expression on the two possible values. -/
def capitalizedType (opts : Options) : String :=
  if opts.allowDefaultSquadNames then "Custom" else "New"

/-- Broadcast emitted when the block-expiry timeout of `handleNewGame` fires. -/
def unlockedMsg (opts : Options) : String :=
  capitalizedType opts ++ " squad creation is now unlocked!"

/-- Countdown broadcast message (template literal with the `> 1` plural). -/
def countdownMsg (opts : Options) (remainingTime : Nat) : String :=
  capitalizedType opts ++ " squad creation unlocked in " ++
    toString remainingTime ++ " second" ++
    (if 1 < remainingTime then "s" else "") ++ "!"

/-- Broadcast emitted immediately by `handleRoundEnd`. -/
def roundEndMsg : String :=
  "Squad creation is currently blocked until the next round starts."

/-- `handleSquadCreated`: the admission check.  When blocking or round-ending
and the attempt is not an exempt default name, the rate limiter is consulted
(possibly emitting a backoff warning), then a disband and the fixed block
warning are issued unconditionally; in every non-exempt path the attempt is
registered with the squad-creation tracker. -/
def handleSquadCreated (opts : Options) (currentTime : Nat)
    (st : PluginState) (info : AttemptInfo) : PluginState × List Cmd :=
  if st.isBlocking || st.isRoundEnding then
    if opts.allowDefaultSquadNames && isDefaultSquadName info.squadName then
      (st, [])
    else
      let rc := checkRateLimit opts currentTime st.rateLimiter info.steamID
      let rateWarns :=
        if !rc.1 then
          match rc.2.lookup info.steamID with
          | some backoffData =>
              [Cmd.warn info.steamID
                (rateLimitWarnMsg
                  (ceilDiv1000 (backoffData.backoffUntil - currentTime)))]
          | none => []
        else []
      let tr := trackSquadCreation opts currentTime st.squadCreationTracker
        info.steamID
      ({ st with rateLimiter := rc.2, squadCreationTracker := tr.1 },
        rateWarns ++
          [Cmd.disband info.teamID info.squadID,
           Cmd.warn info.steamID (blockWarnMsg opts.blockDuration)] ++ tr.2)
  else
    let tr := trackSquadCreation opts currentTime st.squadCreationTracker
      info.steamID
    ({ st with squadCreationTracker := tr.1 }, tr.2)

/-- `scheduleBroadcasts`: one countdown timer every 5000 ms over the block
duration, each carrying the rounded-up remaining time at its fire time. -/
def scheduleBroadcasts (opts : Options) (now : Nat) : List Timer :=
  let messageFrequency := 5000
  let blockDurationMs := opts.blockDuration * 1000
  let totalMessages := blockDurationMs / messageFrequency
  (List.range totalMessages).map (fun i =>
    let delay := (i + 1) * messageFrequency
    let remainingTime := ceilDiv1000 (blockDurationMs - delay)
    { fireAt := now + delay, msg := countdownMsg opts remainingTime })

/-- `handleNewGame`: start the new-match block, clear the squad-creation
tracker, (re)schedule countdown broadcasts in broadcast mode, and arm the
block-expiry timeout.  The rate limiter is left untouched. -/
def handleNewGame (opts : Options) (now : Nat) (st : PluginState) :
    PluginState × List Cmd :=
  ({ st with
      isBlocking := true
      isRoundEnding := false
      blockEndTime := now + opts.blockDuration * 1000
      squadCreationTracker := []
      broadcastTimeouts :=
        if opts.broadcastMode then scheduleBroadcasts opts now
        else st.broadcastTimeouts
      expiryTimeouts := st.expiryTimeouts ++ [now + opts.blockDuration * 1000] },
    [])

/-- `handleRoundEnd`: enter the round-end block, cancel the pending countdown
broadcasts, clear the squad-creation tracker, broadcast the round-end notice.
The block-expiry timeout is not cancelled. -/
def handleRoundEnd (st : PluginState) : PluginState × List Cmd :=
  ({ st with
      isBlocking := true
      isRoundEnding := true
      broadcastTimeouts := []
      squadCreationTracker := [] },
    [Cmd.broadcast roundEndMsg])

/-- A pending countdown timeout fires: if it was not cleared it broadcasts
its message and is consumed. -/
def fireCountdown (st : PluginState) (tm : Timer) : PluginState × List Cmd :=
  if st.broadcastTimeouts.contains tm then
    ({ st with broadcastTimeouts := st.broadcastTimeouts.erase tm },
      [Cmd.broadcast tm.msg])
  else
    (st, [])

/-- The block-expiry timeout of `handleNewGame` fires: it clears `isBlocking`
and broadcasts the unlocked message. -/
def fireExpiry (opts : Options) (st : PluginState) (t : Nat) :
    PluginState × List Cmd :=
  if st.expiryTimeouts.contains t then
    ({ st with isBlocking := false, expiryTimeouts := st.expiryTimeouts.erase t },
      [Cmd.broadcast (unlockedMsg opts)])
  else
    (st, [])

/-- Events the single-threaded event loop can deliver to the plugin. -/
inductive Event where
  | newGame (now : Nat)
  | roundEnd
  | squadCreated (now : Nat) (info : AttemptInfo)
  | countdownFires (tm : Timer)
  | expiryFires (t : Nat)
  deriving DecidableEq, Repr

/-- Dispatch one event to its handler. -/
def step (opts : Options) (st : PluginState) : Event → PluginState × List Cmd
  | .newGame now => handleNewGame opts now st
  | .roundEnd => handleRoundEnd st
  | .squadCreated now info => handleSquadCreated opts now st info
  | .countdownFires tm => fireCountdown st tm
  | .expiryFires t => fireExpiry opts st t

/-- Run a sequence of events, accumulating all emitted commands. -/
def run (opts : Options) (st : PluginState) :
    List Event → PluginState × List Cmd
  | [] => (st, [])
  | e :: es =>
      let r := step opts st e
      let rest := run opts r.1 es
      (rest.1, r.2 ++ rest.2)

/-- Iterate `checkRateLimit` for one player over a list of attempt times,
collecting the boolean results. -/
def runRateChecks (opts : Options) (rl : List (String × RateData))
    (steamID : String) : List Nat → List Bool × List (String × RateData)
  | [] => ([], rl)
  | t :: ts =>
      let r := checkRateLimit opts t rl steamID
      let rest := runRateChecks opts r.2 steamID ts
      (r.1 :: rest.1, rest.2)

/-- Iterate `trackSquadCreation` for one player over a list of attempt times,
collecting the emitted kick commands. -/
def runTrack (opts : Options) (tracker : List (String × List Nat))
    (steamID : String) : List Nat → List (String × List Nat) × List Cmd
  | [] => (tracker, [])
  | t :: ts =>
      let r := trackSquadCreation opts t tracker steamID
      let rest := runTrack opts r.1 steamID ts
      (rest.1, r.2 ++ rest.2)

/-- Discriminator: is the command a disband? -/
def Cmd.isDisband : Cmd → Bool
  | .disband _ _ => true
  | _ => false

/-- Discriminator: is the command a warn? -/
def Cmd.isWarn : Cmd → Bool
  | .warn _ _ => true
  | _ => false

/-- Discriminator: is the command a kick? -/
def Cmd.isKick : Cmd → Bool
  | .kick _ _ => true
  | _ => false

/-- Discriminator: is the command a broadcast? -/
def Cmd.isBroadcast : Cmd → Bool
  | .broadcast _ => true
  | _ => false

/-- Discriminator: is the event a NEW_GAME signal? -/
def Event.isNewGame : Event → Bool
  | .newGame _ => true
  | _ => false

/-- Result of one rate-limiter evaluation, as named by the spec. -/
inductive RateDecision where
  | Allowed
  | Backoff
  deriving DecidableEq, Repr

/-- The per-call rate-limiter contract exactly as the spec words it
(`checkAndRegister`): active backoff returns `Backoff` with the record
unchanged; otherwise prune, then either trip the backoff or append `now`.
Stated over a single player record, for comparison against
`checkRateLimit`. -/
def rateLimitSpecStep (opts : Options) (now : Nat) (rd : RateData) :
    RateDecision × RateData :=
  if now < rd.backoffUntil then
    (.Backoff, rd)
  else
    let pruned := rd.timestamps.filter
      (fun ts => decide (now - ts < opts.rateLimitWindow * 1000))
    if opts.rateLimitMaxSquads ≤ pruned.length then
      (.Backoff, { timestamps := pruned
                   backoffUntil := now + opts.rateLimitBackoffTime * 1000 })
    else
      (.Allowed, { timestamps := pruned ++ [now], backoffUntil := rd.backoffUntil })

/-- Default options with the rate limiter switched on. -/
def optsRL : Options := { defaultOptions with rateLimitEnforced := true }

/-- Default options with countdown broadcast mode switched on. -/
def optsBC : Options := { defaultOptions with broadcastMode := true }

/-- Default options with the abuse kick switched on and a threshold of one
squad per window. -/
def optsKick : Options :=
  { defaultOptions with
      enforceMaxSquadCreationKick := true
      maxSquadsInTimeWindow := 1 }

/-- A concrete non-exempt squad-creation attempt. -/
def alpha : AttemptInfo :=
  { steamID := "p", teamID := "1", squadID := "2", squadName := "Alpha" }

end SCB

namespace SCB

theorem lookup_mapSet {α : Type} (m : List (String × α)) (k : String) (v : α) :
    (mapSet m k v).lookup k = some v := by
  simp [mapSet, List.lookup]

theorem runRateChecks_append (opts : Options) (sid : String) (xs ys : List Nat) :
    ∀ rl, runRateChecks opts rl sid (xs ++ ys) =
      ((runRateChecks opts rl sid xs).1 ++
        (runRateChecks opts (runRateChecks opts rl sid xs).2 sid ys).1,
       (runRateChecks opts (runRateChecks opts rl sid xs).2 sid ys).2) := by
  induction xs with
  | nil => intro rl; simp [runRateChecks]
  | cons x xs ih => intro rl; simp [runRateChecks, ih]

theorem filter_replicate_window (opts : Options) (t j : Nat)
    (hw : 0 < opts.rateLimitWindow) :
    (List.replicate j t).filter
      (fun ts => decide (t - ts < opts.rateLimitWindow * 1000)) =
      List.replicate j t := by
  apply List.filter_eq_self.mpr
  intro a ha
  rw [List.eq_of_mem_replicate ha]
  simp only [Nat.sub_self, decide_eq_true_eq]
  exact Nat.mul_pos hw (by norm_num)

theorem checkRateLimit_replicate_step (opts : Options) (sid : String) (t j : Nat)
    (h : opts.rateLimitEnforced = true) (hw : 0 < opts.rateLimitWindow)
    (hj : j < opts.rateLimitMaxSquads) :
    checkRateLimit opts t [(sid, ⟨List.replicate j t, 0⟩)] sid =
      (true, [(sid, ⟨List.replicate (j + 1) t, 0⟩)]) := by
  simp only [checkRateLimit, h, Bool.not_true, Bool.false_eq_true, if_false,
    List.lookup, BEq.refl, Option.getD_some, Option.isNone_some,
    Nat.not_lt_zero, if_true, filter_replicate_window opts t j hw,
    List.length_replicate]
  rw [if_neg (by omega)]
  simp [mapSet, List.replicate_succ']

theorem runRateChecks_replicate_aux (opts : Options) (sid : String) (t : Nat)
    (h : opts.rateLimitEnforced = true) (hw : 0 < opts.rateLimitWindow) :
    ∀ k j, j + k ≤ opts.rateLimitMaxSquads →
      runRateChecks opts [(sid, ⟨List.replicate j t, 0⟩)] sid
          (List.replicate k t) =
        (List.replicate k true, [(sid, ⟨List.replicate (j + k) t, 0⟩)]) := by
  intro k
  induction k with
  | zero => intro j hj; simp [runRateChecks]
  | succ k ih =>
      intro j hj
      rw [List.replicate_succ]
      simp only [runRateChecks, checkRateLimit_replicate_step opts sid t j h hw
        (by omega)]
      rw [ih (j + 1) (by omega)]
      have hjk : j + 1 + k = j + (k + 1) := by omega
      rw [hjk, List.replicate_succ]

theorem checkRateLimit_empty_first (opts : Options) (sid : String) (t : Nat)
    (h : opts.rateLimitEnforced = true) (hm : 1 ≤ opts.rateLimitMaxSquads) :
    checkRateLimit opts t [] sid = (true, [(sid, ⟨[t], 0⟩)]) := by
  simp only [checkRateLimit, h, Bool.not_true, Bool.false_eq_true, if_false,
    List.lookup, Option.getD_none, Option.isNone_none, if_true,
    Nat.not_lt_zero, List.filter_nil, List.length_nil]
  rw [if_neg (by omega)]
  simp [mapSet]

end SCB
namespace SCB

theorem checkRateLimit_trip_step (opts : Options) (sid : String) (t : Nat)
    (h : opts.rateLimitEnforced = true) (hw : 0 < opts.rateLimitWindow) :
    checkRateLimit opts t
        [(sid, ⟨List.replicate opts.rateLimitMaxSquads t, 0⟩)] sid =
      (false, [(sid, ⟨List.replicate opts.rateLimitMaxSquads t,
                      t + opts.rateLimitBackoffTime * 1000⟩)]) := by
  simp only [checkRateLimit, h, Bool.not_true, Bool.false_eq_true, if_false,
    List.lookup, BEq.refl, Option.getD_some, Option.isNone_some,
    Nat.not_lt_zero, if_true,
    filter_replicate_window opts t opts.rateLimitMaxSquads hw,
    List.length_replicate]
  rw [if_pos (Nat.le_refl _)]
  simp [mapSet]

theorem checkRateLimit_after_backoff_step (opts : Options) (sid : String) (t : Nat)
    (h : opts.rateLimitEnforced = true) (hm : 1 ≤ opts.rateLimitMaxSquads)
    (hwb : opts.rateLimitWindow ≤ opts.rateLimitBackoffTime) :
    checkRateLimit opts (t + opts.rateLimitBackoffTime * 1000)
        [(sid, ⟨List.replicate opts.rateLimitMaxSquads t,
                t + opts.rateLimitBackoffTime * 1000⟩)] sid =
      (true, [(sid, ⟨[t + opts.rateLimitBackoffTime * 1000],
                     t + opts.rateLimitBackoffTime * 1000⟩)]) := by
  have hdrop : (List.replicate opts.rateLimitMaxSquads t).filter
      (fun ts => decide (t + opts.rateLimitBackoffTime * 1000 - ts <
        opts.rateLimitWindow * 1000)) = [] := by
    apply List.filter_eq_nil_iff.mpr
    intro a ha
    rw [List.eq_of_mem_replicate ha]
    simp only [decide_eq_true_eq, Nat.add_sub_cancel_left, not_lt]
    exact Nat.mul_le_mul_right 1000 hwb
  simp only [checkRateLimit, h, Bool.not_true, Bool.false_eq_true, if_false,
    List.lookup, BEq.refl, Option.getD_some, Option.isNone_some, hdrop,
    List.length_nil, lt_irrefl, if_false]
  rw [if_neg (by omega)]
  simp [mapSet]

end SCB
namespace SCB

theorem checkRateLimit_spec_eq (opts : Options) (now : Nat)
    (rl : List (String × RateData)) (sid : String)
    (h : opts.rateLimitEnforced = true) :
    ((checkRateLimit opts now rl sid).1 = true ↔
      (rateLimitSpecStep opts now ((rl.lookup sid).getD ⟨[], 0⟩)).1 =
        RateDecision.Allowed) ∧
    (checkRateLimit opts now rl sid).2.lookup sid =
      some (rateLimitSpecStep opts now ((rl.lookup sid).getD ⟨[], 0⟩)).2 := by
  cases h0 : rl.lookup sid with
  | none =>
      simp only [checkRateLimit, rateLimitSpecStep, h, h0, Option.getD_none,
        Option.isNone_none, Bool.not_true, Bool.false_eq_true, if_false, if_true]
      simp only [Nat.not_lt_zero, if_false]
      split_ifs with h1 <;> simp [lookup_mapSet]
  | some rd =>
      simp only [checkRateLimit, rateLimitSpecStep, h, h0, Option.getD_some,
        Option.isNone_some, Bool.not_true, Bool.false_eq_true, if_false, if_true]
      split_ifs with h1 h2 <;> simp [lookup_mapSet, h0]

/-- Claim C2: with rate limiting enabled, `checkRateLimit` implements the spec's
per-call contract (`Backoff` without modifying the record while a backoff is
active; otherwise prune, trip the backoff at the limit, else append `now`
and allow); in particular the first `rateLimitMaxSquads` attempts in a
window are allowed, the next one is denied and sets a backoff of
`rateLimitBackoffTime` seconds, and an attempt at backoff expiry is allowed
again. -/
theorem C2_checkRateLimit_contract :
    (∀ (opts : Options) (now : Nat) (rl : List (String × RateData))
        (sid : String), opts.rateLimitEnforced = true →
        (((checkRateLimit opts now rl sid).1 = true ↔
            (rateLimitSpecStep opts now ((rl.lookup sid).getD ⟨[], 0⟩)).1 =
              RateDecision.Allowed) ∧
          (checkRateLimit opts now rl sid).2.lookup sid =
            some (rateLimitSpecStep opts now
              ((rl.lookup sid).getD ⟨[], 0⟩)).2)) ∧
    (∀ (opts : Options) (sid : String) (t : Nat),
        opts.rateLimitEnforced = true → 0 < opts.rateLimitWindow →
        1 ≤ opts.rateLimitMaxSquads →
        opts.rateLimitWindow ≤ opts.rateLimitBackoffTime →
        (runRateChecks opts [] sid
            (List.replicate (opts.rateLimitMaxSquads + 1) t)).2 =
          [(sid, ⟨List.replicate opts.rateLimitMaxSquads t,
                  t + opts.rateLimitBackoffTime * 1000⟩)] ∧
        (runRateChecks opts [] sid
            (List.replicate (opts.rateLimitMaxSquads + 1) t ++
              [t + opts.rateLimitBackoffTime * 1000])).1 =
          List.replicate opts.rateLimitMaxSquads true ++ [false, true]) := by
  constructor
  · intro opts now rl sid h
    exact checkRateLimit_spec_eq opts now rl sid h
  · intro opts sid t h hw hm hwb
    obtain ⟨m, hmEq⟩ : ∃ m, opts.rateLimitMaxSquads = m + 1 :=
      ⟨opts.rateLimitMaxSquads - 1, by omega⟩
    have hchain : List.replicate (opts.rateLimitMaxSquads + 1) t =
        t :: (List.replicate m t ++ [t]) := by
      rw [hmEq, List.replicate_succ, List.replicate_succ']
    have hone : ([t] : List Nat) = List.replicate 1 t := rfl
    have hpre :
        runRateChecks opts [] sid
            (List.replicate (opts.rateLimitMaxSquads + 1) t) =
          (true :: (List.replicate m true ++ [false]),
           [(sid, ⟨List.replicate opts.rateLimitMaxSquads t,
                   t + opts.rateLimitBackoffTime * 1000⟩)]) := by
      rw [hchain]
      simp only [runRateChecks, checkRateLimit_empty_first opts sid t h hm]
      rw [show ([(sid, (⟨[t], 0⟩ : RateData))]) =
        [(sid, (⟨List.replicate 1 t, 0⟩ : RateData))] from rfl]
      rw [runRateChecks_append,
        runRateChecks_replicate_aux opts sid t h hw m 1 (by omega)]
      have h2 : (1 : Nat) + m = opts.rateLimitMaxSquads := by omega
      rw [h2]
      simp only [hone, runRateChecks, checkRateLimit_trip_step opts sid t h hw]
    refine ⟨by rw [hpre], ?_⟩
    rw [runRateChecks_append, hpre]
    simp only [runRateChecks,
      checkRateLimit_after_backoff_step opts sid t h hm hwb]
    simp [hmEq, List.replicate_succ]

theorem C2_checkRateLimit_contract_witness :
    ((checkRateLimit optsRL 5 [] "p").1 = true ↔
      (rateLimitSpecStep optsRL 5 ⟨[], 0⟩).1 = RateDecision.Allowed) ∧
    (runRateChecks optsRL [] "p" (List.replicate 4 0 ++ [10000])).1 =
      List.replicate 3 true ++ [false, true] := by
  constructor
  · have h := (C2_checkRateLimit_contract.1 optsRL 5 [] "p" (by decide)).1
    simpa using h
  · have h := (C2_checkRateLimit_contract.2 optsRL "p" 0 (by decide) (by decide)
      (by decide) (by decide)).2
    simpa using h

end SCB
namespace SCB

/-- Claim C1 counterexample: with the default options (blockDuration 15), a
non-exempt attempt 5 seconds into the new-match block is warned with the
fixed message naming the configured 15-second duration, and an attempt with
3 seconds remaining produces the very same feedback — the warning does not
state the rounded-up time remaining. -/
theorem C1_counterexample :
    ((handleSquadCreated defaultOptions 5000
        (handleNewGame defaultOptions 0 initialState).1 alpha).2 =
      [Cmd.disband "1" "2",
       Cmd.warn "p"
        "Custom squad creation is blocked for the first 15 seconds of the game."]) ∧
    (handleSquadCreated defaultOptions 12000
        (handleNewGame defaultOptions 0 initialState).1 alpha).2 =
      (handleSquadCreated defaultOptions 5000
        (handleNewGame defaultOptions 0 initialState).1 alpha).2 := by
  constructor <;> rfl

/-- Claim C1 amended: for every non-exempt attempt denied while blocking (rate
limiting and kicking disabled), the deny feedback is the disband plus the
fixed warning that names `blockDuration`, independent of the attempt time. -/
theorem C1_blockWarn_uses_fixed_duration (opts : Options) (t : Nat)
    (st : PluginState) (info : AttemptInfo)
    (hb : (st.isBlocking || st.isRoundEnding) = true)
    (hne : (opts.allowDefaultSquadNames && isDefaultSquadName info.squadName) = false)
    (hrl : opts.rateLimitEnforced = false)
    (hk : opts.enforceMaxSquadCreationKick = false) :
    (handleSquadCreated opts t st info).2 =
      [Cmd.disband info.teamID info.squadID,
       Cmd.warn info.steamID (blockWarnMsg opts.blockDuration)] := by
  simp [handleSquadCreated, hb, hne, checkRateLimit, hrl, trackSquadCreation, hk]

theorem C1_blockWarn_uses_fixed_duration_witness :
    (handleSquadCreated defaultOptions 5000
        (handleNewGame defaultOptions 0 initialState).1 alpha).2 =
      [Cmd.disband alpha.teamID alpha.squadID,
       Cmd.warn alpha.steamID (blockWarnMsg defaultOptions.blockDuration)] :=
  C1_blockWarn_uses_fixed_duration defaultOptions 5000
    (handleNewGame defaultOptions 0 initialState).1 alpha
    (by decide) (by decide) rfl rfl

/-- Claim C4 counterexample: a backoff established before the new-match signal
survives `handleNewGame` (only the squad-creation tracker is cleared) and
still denies an attempt made after the new match starts. -/
theorem C4_counterexample :
    (((run optsRL initialState [Event.roundEnd, Event.squadCreated 0 alpha,
        Event.squadCreated 0 alpha, Event.squadCreated 0 alpha,
        Event.squadCreated 0 alpha, Event.newGame 5000]).1.rateLimiter) =
      [("p", ⟨[0, 0, 0], 10000⟩)]) ∧
    Cmd.warn "p" (rateLimitWarnMsg 4) ∈
      (handleSquadCreated optsRL 6000
        (run optsRL initialState [Event.roundEnd, Event.squadCreated 0 alpha,
          Event.squadCreated 0 alpha, Event.squadCreated 0 alpha,
          Event.squadCreated 0 alpha, Event.newGame 5000]).1 alpha).2 := by
  constructor
  · rfl
  · decide

/-- Claim C4 amended: `handleNewGame` clears the squad-creation tracker but leaves
every player's rate-limiter record (timestamps and backoffUntil) untouched. -/
theorem C4_newGame_clears_tracker_not_rateLimiter (opts : Options) (now : Nat)
    (st : PluginState) :
    (handleNewGame opts now st).1.squadCreationTracker = [] ∧
    (handleNewGame opts now st).1.rateLimiter = st.rateLimiter :=
  ⟨rfl, rfl⟩

/-- Claim C8 counterexample: in broadcast mode (broadcastMode true), a non-exempt
denied attempt still produces the per-player warn. -/
theorem C8_counterexample :
    Cmd.warn "p" (blockWarnMsg 15) ∈
      (handleSquadCreated optsBC 1000 (handleRoundEnd initialState).1 alpha).2 := by
  decide

/-- Claim C8 amended: for every denied non-exempt attempt, both the disband and
the per-player block warning are issued unconditionally, regardless of
`broadcastMode`. -/
theorem C8_disband_and_warn_unconditional (opts : Options) (t : Nat)
    (st : PluginState) (info : AttemptInfo)
    (hb : (st.isBlocking || st.isRoundEnding) = true)
    (hne : (opts.allowDefaultSquadNames && isDefaultSquadName info.squadName) = false) :
    Cmd.disband info.teamID info.squadID ∈ (handleSquadCreated opts t st info).2 ∧
    Cmd.warn info.steamID (blockWarnMsg opts.blockDuration) ∈
      (handleSquadCreated opts t st info).2 := by
  simp [handleSquadCreated, hb, hne]

theorem C8_disband_and_warn_unconditional_witness :
    Cmd.disband alpha.teamID alpha.squadID ∈
      (handleSquadCreated optsBC 1000 (handleRoundEnd initialState).1 alpha).2 ∧
    Cmd.warn alpha.steamID (blockWarnMsg optsBC.blockDuration) ∈
      (handleSquadCreated optsBC 1000 (handleRoundEnd initialState).1 alpha).2 :=
  C8_disband_and_warn_unconditional optsBC 1000 (handleRoundEnd initialState).1
    alpha (by decide) (by decide)

end SCB
namespace SCB

/-- Claim C6 counterexample: during the round-end block, an exempt default-name
attempt returns early — the handler leaves the state (including the
squad-creation tracker) unchanged, so the attempt is never registered with
the abuse tracker. -/
theorem C6_counterexample :
    handleSquadCreated defaultOptions 0 (handleRoundEnd initialState).1
        { steamID := "p", teamID := "1", squadID := "2", squadName := "Squad 1" } =
      ((handleRoundEnd initialState).1, []) ∧
    ((handleSquadCreated defaultOptions 0 (handleRoundEnd initialState).1
        { steamID := "p", teamID := "1", squadID := "2",
          squadName := "Squad 1" }).1.squadCreationTracker.lookup "p" = none) := by
  constructor <;> rfl

theorem trackSquadCreation_lookup (opts : Options) (t : Nat)
    (tr : List (String × List Nat)) (sid : String) :
    (trackSquadCreation opts t tr sid).1.lookup sid =
      some (((tr.lookup sid).getD []).filter
        (fun ts => decide (t - ts < opts.timeWindowForKick * 1000)) ++ [t]) := by
  simp only [trackSquadCreation]
  split <;> exact lookup_mapSet ..

/-- Claim C6 amended: every attempt is registered with the abuse tracker (its
pruned record gets the attempt time appended) except a default-name-exempt
attempt made during a block phase, which returns early with the whole state
unchanged and nothing registered. -/
theorem C6_tracking_except_exempt :
    (∀ (opts : Options) (t : Nat) (st : PluginState) (info : AttemptInfo),
        (st.isBlocking || st.isRoundEnding) = true →
        (opts.allowDefaultSquadNames && isDefaultSquadName info.squadName) = true →
        handleSquadCreated opts t st info = (st, [])) ∧
    (∀ (opts : Options) (t : Nat) (st : PluginState) (info : AttemptInfo),
        ((st.isBlocking || st.isRoundEnding) = false ∨
          (opts.allowDefaultSquadNames && isDefaultSquadName info.squadName) = false) →
        (handleSquadCreated opts t st info).1.squadCreationTracker.lookup
            info.steamID =
          some (((st.squadCreationTracker.lookup info.steamID).getD []).filter
            (fun ts => decide (t - ts < opts.timeWindowForKick * 1000)) ++ [t])) := by
  constructor
  · intro opts t st info hb hex
    simp [handleSquadCreated, hb, hex]
  · intro opts t st info hcase
    rcases hcase with hb | hex
    · simp [handleSquadCreated, hb, trackSquadCreation_lookup]
    · by_cases hb : (st.isBlocking || st.isRoundEnding) = true
      · simp [handleSquadCreated, hb, hex, trackSquadCreation_lookup]
      · simp at hb
        simp [handleSquadCreated, hb, trackSquadCreation_lookup]

theorem C6_tracking_except_exempt_witness :
    handleSquadCreated defaultOptions 0 (handleRoundEnd initialState).1
        { steamID := "p", teamID := "1", squadID := "2", squadName := "Squad 1" } =
      ((handleRoundEnd initialState).1, []) ∧
    (handleSquadCreated defaultOptions 7 initialState alpha).1.squadCreationTracker.lookup
        alpha.steamID = some [7] := by
  constructor
  · exact C6_tracking_except_exempt.1 defaultOptions 0 (handleRoundEnd initialState).1
      { steamID := "p", teamID := "1", squadID := "2", squadName := "Squad 1" }
      (by decide) (by decide)
  · have h := C6_tracking_except_exempt.2 defaultOptions 7 initialState alpha
      (Or.inl (by decide))
    simpa using h

/-- Claim C9 counterexample: after a backoff is tripped at time 0, an evaluation
at time 5000 returns early on the active backoff without pruning, leaving
the three timestamps at 0 in the record — each 5000 ms old, exceeding the
2000 ms rate-limit window. -/
theorem C9_counterexample :
    ((runRateChecks optsRL [] "p" [0, 0, 0, 0, 5000]).1 =
      [true, true, true, false, false]) ∧
    ((runRateChecks optsRL [] "p" [0, 0, 0, 0, 5000]).2.lookup "p" =
      some ⟨[0, 0, 0], 10000⟩) ∧
    optsRL.rateLimitWindow * 1000 ≤ 5000 - 0 := by
  refine ⟨rfl, rfl, by decide⟩

/-- Claim C9 amended: the no-stale-timestamps invariant holds after every
evaluation that reaches the pruning step (no backoff active at evaluation
time): every stored timestamp is then within `rateLimitWindow` of the
evaluation time.  Evaluations returning early on an active backoff leave
the record unpruned. -/
theorem C9_pruned_when_not_backoff (opts : Options) (now : Nat)
    (rl : List (String × RateData)) (sid : String) (rd : RateData)
    (he : opts.rateLimitEnforced = true)
    (hw : 0 < opts.rateLimitWindow)
    (hnb : ¬ now < ((rl.lookup sid).getD ⟨[], 0⟩).backoffUntil)
    (hres : (checkRateLimit opts now rl sid).2.lookup sid = some rd) :
    ∀ ts ∈ rd.timestamps, now - ts < opts.rateLimitWindow * 1000 := by
  have hspec := (checkRateLimit_spec_eq opts now rl sid he).2
  rw [hres] at hspec
  have hrd : rd = (rateLimitSpecStep opts now ((rl.lookup sid).getD ⟨[], 0⟩)).2 := by
    exact Option.some.inj hspec
  subst hrd
  simp only [rateLimitSpecStep, if_neg hnb]
  split_ifs with h1
  · intro ts hts
    have := List.of_mem_filter hts
    simpa using this
  · intro ts hts
    simp only [List.mem_append, List.mem_singleton] at hts
    rcases hts with hts | hts
    · have := List.of_mem_filter hts
      simpa using this
    · subst hts
      simpa using Nat.mul_pos hw (show (0:Nat) < 1000 by norm_num)

theorem C9_pruned_when_not_backoff_witness :
    5000 - 5000 < optsRL.rateLimitWindow * 1000 :=
  C9_pruned_when_not_backoff optsRL 5000 [] "p" ⟨[5000], 0⟩
    (by decide) (by decide) (by decide) (by rfl) 5000 (by decide)

end SCB
namespace SCB

theorem trackSquadCreation_cmds (opts : Options) (t : Nat)
    (tr : List (String × List Nat)) (sid : String) :
    (trackSquadCreation opts t tr sid).2 = [] ∨
    (trackSquadCreation opts t tr sid).2 = [Cmd.kick sid kickReason] := by
  simp only [trackSquadCreation]
  split
  · right; rfl
  · left; rfl

/-- Claim C7 amended: every single evaluation of `handleSquadCreated` issues at
most one disband, at most two warns (the rate-limit backoff warning plus the
unconditional block warning) and at most one kick. -/
theorem C7_bounded_side_effects (opts : Options) (t : Nat) (st : PluginState)
    (info : AttemptInfo) :
    (((handleSquadCreated opts t st info).2.filter Cmd.isDisband).length ≤ 1) ∧
    (((handleSquadCreated opts t st info).2.filter Cmd.isWarn).length ≤ 2) ∧
    (((handleSquadCreated opts t st info).2.filter Cmd.isKick).length ≤ 1) := by
  rcases trackSquadCreation_cmds opts t st.squadCreationTracker info.steamID
    with htr | htr <;>
  · simp only [handleSquadCreated]
    split
    · split
      · simp
      · rw [htr]
        split
        · split <;>
            simp [Cmd.isDisband, Cmd.isWarn, Cmd.isKick, List.filter_append,
              List.filter]
        · simp [Cmd.isDisband, Cmd.isWarn, Cmd.isKick, List.filter_append,
            List.filter]
    · rw [htr]
      simp [Cmd.isDisband, Cmd.isWarn, Cmd.isKick, List.filter]

/-- Claim C7 counterexample: a non-exempt attempt denied while the player is in
active rate-limit backoff produces two warn commands (the backoff warning
and the unconditional block warning), not at most one. -/
theorem C7_counterexample :
    ((handleSquadCreated optsRL 1000
        (run optsRL initialState [Event.roundEnd, Event.squadCreated 0 alpha,
          Event.squadCreated 0 alpha, Event.squadCreated 0 alpha,
          Event.squadCreated 0 alpha]).1 alpha).2.filter Cmd.isWarn).length = 2 := by
  rfl

end SCB
namespace SCB

theorem filter_replicate_kick_window (opts : Options) (t j : Nat)
    (hw : 0 < opts.timeWindowForKick) :
    (List.replicate j t).filter
      (fun ts => decide (t - ts < opts.timeWindowForKick * 1000)) =
      List.replicate j t := by
  apply List.filter_eq_self.mpr
  intro a ha
  rw [List.eq_of_mem_replicate ha]
  simp only [Nat.sub_self, decide_eq_true_eq]
  exact Nat.mul_pos hw (by norm_num)

theorem trackSquadCreation_replicate_step (opts : Options) (sid : String)
    (t j : Nat) (hw : 0 < opts.timeWindowForKick) :
    trackSquadCreation opts t [(sid, List.replicate j t)] sid =
      ([(sid, List.replicate (j + 1) t)],
       if opts.enforceMaxSquadCreationKick
           && decide (opts.maxSquadsInTimeWindow < j + 1)
       then [Cmd.kick sid kickReason] else []) := by
  simp only [trackSquadCreation, List.lookup, BEq.refl, Option.getD_some,
    filter_replicate_kick_window opts t j hw, List.length_append,
    List.length_replicate, List.length_singleton]
  simp only [mapSet, List.replicate_succ']
  simp only [bne_self_eq_false, Bool.false_eq_true, not_false_eq_true,
    List.filter_cons_of_neg, List.filter_nil]
  split <;> rfl

theorem runTrack_replicate_aux (opts : Options) (sid : String) (t : Nat)
    (he : opts.enforceMaxSquadCreationKick = true)
    (hw : 0 < opts.timeWindowForKick) :
    ∀ k j,
      (runTrack opts [(sid, List.replicate j t)] sid
          (List.replicate k t)).2.length =
        (j + k) - max opts.maxSquadsInTimeWindow j := by
  intro k
  induction k with
  | zero => intro j; simp [runTrack]
  | succ k ih =>
      intro j
      rw [List.replicate_succ]
      simp only [runTrack, trackSquadCreation_replicate_step opts sid t j hw,
        he, Bool.true_and, List.length_append, ih (j + 1)]
      by_cases hK : opts.maxSquadsInTimeWindow < j + 1
      · rw [if_pos (by simpa using hK)]
        simp only [List.length_singleton]
        omega
      · rw [if_neg (by simpa using hK)]
        simp only [List.length_nil]
        omega

/-- Claim C5 amended: with abuse-kick enforcement enabled (threshold K, a positive
window), a burst of n attempts inside the window triggers n - K kick
commands: the (K+1)-th attempt triggers the first kick and every further
attempt in the same over-threshold window triggers an additional kick — the
kick is not limited to once per burst. -/
theorem C5_kick_every_over_threshold (opts : Options) (sid : String) (t n : Nat)
    (he : opts.enforceMaxSquadCreationKick = true)
    (hw : 0 < opts.timeWindowForKick) :
    (runTrack opts [] sid (List.replicate n t)).2.length =
      n - opts.maxSquadsInTimeWindow := by
  cases n with
  | zero => simp [runTrack]
  | succ m =>
      have hfirst : trackSquadCreation opts t [] sid =
          ([(sid, List.replicate 1 t)],
           if opts.enforceMaxSquadCreationKick
               && decide (opts.maxSquadsInTimeWindow < 0 + 1)
           then [Cmd.kick sid kickReason] else []) := by
        simp only [trackSquadCreation, List.lookup, Option.getD_none,
          List.filter_nil, List.nil_append, List.length_singleton]
        simp only [mapSet, List.filter_nil, List.replicate_one]
        split <;> rfl
      rw [List.replicate_succ]
      simp only [runTrack, hfirst, he, Bool.true_and, List.length_append,
        runTrack_replicate_aux opts sid t he hw m 1]
      by_cases hK : opts.maxSquadsInTimeWindow < 0 + 1
      · rw [if_pos (by simpa using hK)]
        simp only [List.length_singleton]
        omega
      · rw [if_neg (by simpa using hK)]
        simp only [List.length_nil]
        omega

theorem C5_kick_every_over_threshold_witness :
    (runTrack optsKick [] "p" (List.replicate 3 0)).2.length =
      3 - optsKick.maxSquadsInTimeWindow := by
  have h := C5_kick_every_over_threshold optsKick "p" 0 3 (by decide) (by decide)
  simpa using h

/-- Claim C5 counterexample: with threshold K = 1 and window 5 s, three attempts
at the same instant produce two kick commands — the second and third
attempts of the same over-threshold burst each trigger a kick, so the player
is kicked more than once without any state reset. -/
theorem C5_counterexample :
    (runTrack optsKick [] "p" [0, 0, 0]).2 =
      [Cmd.kick "p" kickReason, Cmd.kick "p" kickReason] := by
  rfl

end SCB
namespace SCB

/-- Claim C3 counterexample: broadcast mode, block duration 15 s; a new match
starts at t = 0 and the round ends before the block expires.  The round-end
handler does cancel the pending countdown timers, but the block-expiry
timeout armed by the new-match handler is still pending (due at t = 15000,
after the round end) and firing it emits the "unlocked" broadcast. -/
theorem C3_counterexample :
    ((run optsBC initialState [Event.newGame 0, Event.roundEnd]).1.broadcastTimeouts
      = []) ∧
    ((run optsBC initialState [Event.newGame 0, Event.roundEnd]).1.expiryTimeouts
      = [15000]) ∧
    (fireExpiry optsBC
        (run optsBC initialState [Event.newGame 0, Event.roundEnd]).1 15000).2 =
      [Cmd.broadcast (unlockedMsg optsBC)] := by
  refine ⟨rfl, rfl, rfl⟩

/-- Claim C3 amended: handling a round end cancels all pending scheduled countdown
broadcasts (none can fire afterwards), but it leaves the block-expiry
timeout armed by the new-match handler pending, and that timer still emits
its "unlocked" broadcast when it fires after the round end. -/
theorem C3_roundEnd_cancels_countdowns_not_expiry (opts : Options)
    (st : PluginState) (tm : Timer) (t : Nat) (ht : t ∈ st.expiryTimeouts) :
    ((handleRoundEnd st).1.broadcastTimeouts = []) ∧
    ((fireCountdown (handleRoundEnd st).1 tm).2 = []) ∧
    ((handleRoundEnd st).1.expiryTimeouts = st.expiryTimeouts) ∧
    ((fireExpiry opts (handleRoundEnd st).1 t).2 =
      [Cmd.broadcast (unlockedMsg opts)]) := by
  refine ⟨rfl, ?_, rfl, ?_⟩
  · simp [fireCountdown, handleRoundEnd]
  · simp only [fireExpiry, handleRoundEnd]
    rw [if_pos (List.elem_eq_true_of_mem ht)]

theorem C3_roundEnd_cancels_countdowns_not_expiry_witness :
    ((handleRoundEnd (handleNewGame optsBC 0 initialState).1).1.broadcastTimeouts
      = []) ∧
    ((fireCountdown (handleRoundEnd (handleNewGame optsBC 0 initialState).1).1
        ⟨5000, countdownMsg optsBC 10⟩).2 = []) ∧
    ((handleRoundEnd (handleNewGame optsBC 0 initialState).1).1.expiryTimeouts =
      (handleNewGame optsBC 0 initialState).1.expiryTimeouts) ∧
    ((fireExpiry optsBC
        (handleRoundEnd (handleNewGame optsBC 0 initialState).1).1 15000).2 =
      [Cmd.broadcast (unlockedMsg optsBC)]) :=
  C3_roundEnd_cancels_countdowns_not_expiry optsBC
    (handleNewGame optsBC 0 initialState).1 ⟨5000, countdownMsg optsBC 10⟩ 15000
    (by decide)

theorem isRoundEnding_step (opts : Options) (st : PluginState) (e : Event)
    (hre : st.isRoundEnding = true) (hng : e.isNewGame = false) :
    (step opts st e).1.isRoundEnding = true := by
  cases e with
  | newGame n => simp [Event.isNewGame] at hng
  | roundEnd => rfl
  | squadCreated now info =>
      simp only [step, handleSquadCreated]
      split
      · split
        · exact hre
        · exact hre
      · exact hre
  | countdownFires tm =>
      simp only [step, fireCountdown]
      split
      · exact hre
      · exact hre
  | expiryFires t =>
      simp only [step, fireExpiry]
      split
      · exact hre
      · exact hre

theorem isRoundEnding_run (opts : Options) (es : List Event) :
    ∀ st : PluginState, st.isRoundEnding = true →
      (∀ e ∈ es, e.isNewGame = false) →
      (run opts st es).1.isRoundEnding = true := by
  induction es with
  | nil => intro st hre _; exact hre
  | cons e es ih =>
      intro st hre hng
      simp only [run]
      exact ih (step opts st e).1
        (isRoundEnding_step opts st e hre (hng e (by simp)))
        (fun e2 he2 => hng e2 (by simp [he2]))

theorem denied_when_roundEnding (opts : Options) (now : Nat) (st : PluginState)
    (info : AttemptInfo) (hre : st.isRoundEnding = true)
    (hne : (opts.allowDefaultSquadNames && isDefaultSquadName info.squadName) = false) :
    Cmd.disband info.teamID info.squadID ∈
      (handleSquadCreated opts now st info).2 := by
  simp [handleSquadCreated, hre, hne]

/-- Claim C10: once a round end has been handled, the round-ending flag stays set
across every later event that is not a new-match signal (in particular
across the block-expiry timer clearing `isBlocking`), and every non-exempt
squad-creation attempt in that span is denied with a disband. -/
theorem C10_roundEnd_blocks_until_newGame (opts : Options) (st0 : PluginState)
    (es : List Event) (hng : ∀ e ∈ es, e.isNewGame = false)
    (now : Nat) (info : AttemptInfo)
    (hne : (opts.allowDefaultSquadNames && isDefaultSquadName info.squadName) = false) :
    ((run opts (handleRoundEnd st0).1 es).1.isRoundEnding = true) ∧
    Cmd.disband info.teamID info.squadID ∈
      (handleSquadCreated opts now
        (run opts (handleRoundEnd st0).1 es).1 info).2 := by
  have h1 : (handleRoundEnd st0).1.isRoundEnding = true := rfl
  have h2 := isRoundEnding_run opts es (handleRoundEnd st0).1 h1 hng
  exact ⟨h2, denied_when_roundEnding opts now _ info h2 hne⟩

theorem C10_roundEnd_blocks_until_newGame_witness :
    ((run defaultOptions
        (handleRoundEnd (handleNewGame defaultOptions 0 initialState).1).1
        [Event.expiryFires 15000]).1.isRoundEnding = true) ∧
    Cmd.disband alpha.teamID alpha.squadID ∈
      (handleSquadCreated defaultOptions 16000
        (run defaultOptions
          (handleRoundEnd (handleNewGame defaultOptions 0 initialState).1).1
          [Event.expiryFires 15000]).1 alpha).2 :=
  C10_roundEnd_blocks_until_newGame defaultOptions
    (handleNewGame defaultOptions 0 initialState).1 [Event.expiryFires 15000]
    (by decide) 16000 alpha (by decide)

end SCB
